import Mathlib

/-!
Shallow embedding of the notebook
`how-tos/Earthdata_Cloud__Single_File__Direct_S3_Access_COG_Example.ipynb`.

The notebook is a linear script:
  1. `get_temp_creds('lpdaac')` — HTTP GET to a provider-keyed credential
     endpoint, body parsed as JSON (`requests.get(...).json()`);
  2. `boto3.Session(...)` built from the three credential fields plus the
     fixed region string;
  3. `rio_env = rio.Env(AWSSession(session), ...); rio_env.__enter__()`;
  4. `da = rioxarray.open_rasterio(s3_url)`;
  5. `da_red = da.squeeze('band', drop=True)`;
  6. `da_red.hvplot.image(x='x', y='y', cmap='gray', aspect='equal')`;
  7. `rio_env.__exit__()`.

External libraries (the network, the JSON decoder, GDAL/rasterio, the
renderer) are modelled by an oracle structure `World`; the notebook's own
control flow (a straight-line sequence of statements, each of which may
raise and thereby abort the rest of the cell sequence) is modelled by a
small-step interpreter `run` over the fixed program `notebookProg`.
-/

namespace S3Cog

/-- Exceptions raised by the Python runtime or by the libraries the
notebook calls.  `keyError` is a failed dict subscript, `jsonDecodeError`
is `requests` failing to decode a response body, `nameError` is use of a
variable that an earlier failed cell never assigned, `valueError` is what
`xarray.squeeze` raises on a named dimension of size ≠ 1. -/
inductive PyError where
  | keyError (key : String)
  | jsonDecodeError
  | requestException
  | nameError (name : String)
  | valueError
  | rasterioError
  | renderError
  deriving DecidableEq

/-- A parsed JSON credential object: the endpoints return a flat object of
string fields, modelled as an association list. -/
abbrev Json := List (String × String)

/-- An HTTP request as issued by `requests.get`: the URL, and the value of
the `timeout` keyword (the notebook never passes one, so it is `none`). -/
structure HttpRequest where
  url : String
  timeout : Option Nat
  deriving DecidableEq

/-- An HTTP response: status code and raw body. -/
structure HttpResponse where
  status : Nat
  body : String
  deriving DecidableEq

/-- The in-memory labeled 3-D array produced by `rioxarray.open_rasterio`:
dimension sizes for band, x, y and the gridded values. -/
structure Raster3 where
  band : Nat
  nx : Nat
  ny : Nat
  data : Nat → Nat → Nat → Int

/-- A 2-D labeled array (x, y), the result of dropping the band dimension. -/
structure Raster2 where
  nx : Nat
  ny : Nat
  data : Nat → Nat → Int

/-- The `boto3.Session` handle: the three credential fields plus region. -/
structure Session where
  aws_access_key_id : String
  aws_secret_access_key : String
  aws_session_token : String
  region_name : String
  deriving DecidableEq

/-- The plot object built by `hvplot.image`: the array being rendered and
the keyword arguments of the call. -/
structure PlotSpec where
  data : Raster2
  x : String
  y : String
  cmap : String
  aspect : String

/-- Oracle for everything outside the notebook's own code: the network,
the JSON decoder of `requests`, `rio.Env.__enter__`,
`rioxarray.open_rasterio`, and the renderer backing `hvplot.image`. -/
structure World where
  http : HttpRequest → Except PyError HttpResponse
  parseJson : String → Option Json
  enterEnv : Except PyError Unit
  openRaster : String → Except PyError Raster3
  render : PlotSpec → Except PyError Unit

/-! ### Constants taken verbatim from the notebook cells -/

def podaac_url : String := "https://archive.podaac.earthdata.nasa.gov/s3credentials"

def gesdisc_url : String := "https://data.gesdisc.earthdata.nasa.gov/s3credentials"

def lpdaac_url : String := "https://data.lpdaac.earthdatacloud.nasa.gov/s3credentials"

def ornldaac_url : String := "https://data.ornldaac.earthdata.nasa.gov/s3credentials"

def ghrcdaac_url : String := "https://data.ghrc.earthdata.nasa.gov/s3credentials"

/-- The `s3_cred_endpoint` dict of the notebook. -/
def s3_cred_endpoint : List (String × String) :=
  [("podaac", podaac_url),
   ("gesdisc", gesdisc_url),
   ("lpdaac", lpdaac_url),
   ("ornldaac", ornldaac_url),
   ("ghrcdaac", ghrcdaac_url)]

/-- The provider the notebook actually fetches credentials for. -/
def provider_used : String := "lpdaac"

/-- The `s3_url` cell. -/
def s3_url : String :=
  "s3://lp-prod-protected/HLSL30.020/HLS.L30.T11SQA.2021333T181532.v2.0/HLS.L30.T11SQA.2021333T181532.v2.0.B04.tif"

def accessKeyId_f : String := "accessKeyId"

def secretAccessKey_f : String := "secretAccessKey"

def sessionToken_f : String := "sessionToken"

def us_west_2 : String := "us-west-2"

def x_axis : String := "x"

def y_axis : String := "y"

def gray_cmap : String := "gray"

def equal_aspect : String := "equal"

/-! ### The notebook's own functions and statements -/

/-- `Response.json()` of `requests`: decode the body, raising a decode
error if it is malformed.  The status code is not consulted. -/
def response_json (w : World) (resp : HttpResponse) : Except PyError Json :=
  match w.parseJson resp.body with
  | some j => Except.ok j
  | none => Except.error PyError.jsonDecodeError

/-- `get_temp_creds(provider)`:
`return requests.get(s3_cred_endpoint[provider]).json()`.
The dict subscript raises `KeyError` for an unknown provider before any
request is made; otherwise a single GET (no timeout keyword) is issued and
its body decoded.  The second component is the list of HTTP requests the
call issued. -/
def get_temp_creds (w : World) (provider : String) :
    Except PyError Json × List HttpRequest :=
  match s3_cred_endpoint.lookup provider with
  | none => (Except.error (PyError.keyError provider), [])
  | some url =>
      let req : HttpRequest := { url := url, timeout := none }
      match w.http req with
      | Except.error e => (Except.error e, [req])
      | Except.ok resp => (response_json w resp, [req])

/-- Python dict subscript `creds[k]` on the parsed credential object. -/
def dictGet (j : Json) (k : String) : Except PyError String :=
  match j.lookup k with
  | some v => Except.ok v
  | none => Except.error (PyError.keyError k)

/-- The `boto3.Session(...)` cell: reads exactly the three credential
fields out of `temp_creds_req` and pairs them with the literal region. -/
def buildSession (creds : Json) : Except PyError Session :=
  match dictGet creds accessKeyId_f with
  | Except.error e => Except.error e
  | Except.ok a =>
      match dictGet creds secretAccessKey_f with
      | Except.error e => Except.error e
      | Except.ok sk =>
          match dictGet creds sessionToken_f with
          | Except.error e => Except.error e
          | Except.ok t =>
              Except.ok { aws_access_key_id := a, aws_secret_access_key := sk,
                          aws_session_token := t, region_name := us_west_2 }

/-- The 2-D array obtained by dropping the band dimension of `da`. -/
def squeezeOk (da : Raster3) : Raster2 :=
  { nx := da.nx, ny := da.ny, data := fun i j => da.data 0 i j }

/-- `da.squeeze('band', drop=True)`: succeeds exactly when the named
dimension has size 1, in which case the singleton band slice is kept;
`xarray` raises `ValueError` otherwise. -/
def squeeze_band_drop (da : Raster3) : Except PyError Raster2 :=
  if da.band = 1 then Except.ok (squeezeOk da)
  else Except.error PyError.valueError

/-- `da_red.hvplot.image(x=..., y=..., cmap=..., aspect=...)`: a pure
constructor pairing the array with the call's keyword arguments. -/
def hvplot_image (da : Raster2) (x y cmap aspect : String) : PlotSpec :=
  { data := da, x := x, y := y, cmap := cmap, aspect := aspect }

/-- The fixed plot-call arguments of the visualization cell applied to a
given 2-D array. -/
def notebook_plot (r : Raster2) : PlotSpec :=
  hvplot_image r x_axis y_axis gray_cmap equal_aspect

/-! ### The notebook as a straight-line program -/

/-- The seven statements of the notebook that do work, in cell order. -/
inductive Step where
  | fetchCreds
  | buildSession
  | enterEnv
  | openRaster
  | reduceDim
  | visualize
  | exitEnv
  deriving DecidableEq

/-- The interpreter state: the notebook's variables (unassigned = `none`)
plus whether the global rasterio/GDAL environment is currently active. -/
structure NBState where
  creds : Option Json
  session : Option Session
  envActive : Bool
  da : Option Raster3
  daRed : Option Raster2
  plot : Option PlotSpec

/-- State before any cell has run. -/
def initState : NBState :=
  { creds := none, session := none, envActive := false,
    da := none, daRed := none, plot := none }

/-- One notebook statement.  A statement that needs a variable an earlier
failed cell never assigned raises `NameError`; otherwise it performs its
library call through the oracle and updates exactly one variable (the
environment steps toggle `envActive` instead). -/
def runStep (w : World) (st : Step) (s : NBState) : Except PyError NBState :=
  match st with
  | Step.fetchCreds =>
      match (get_temp_creds w provider_used).1 with
      | Except.error e => Except.error e
      | Except.ok j => Except.ok { s with creds := some j }
  | Step.buildSession =>
      match s.creds with
      | none => Except.error (PyError.nameError ("temp_creds_req"))
      | some j =>
          match buildSession j with
          | Except.error e => Except.error e
          | Except.ok sess => Except.ok { s with session := some sess }
  | Step.enterEnv =>
      match s.session with
      | none => Except.error (PyError.nameError ("session"))
      | some _ =>
          match w.enterEnv with
          | Except.error e => Except.error e
          | Except.ok _ => Except.ok { s with envActive := true }
  | Step.openRaster =>
      match w.openRaster s3_url with
      | Except.error e => Except.error e
      | Except.ok da => Except.ok { s with da := some da }
  | Step.reduceDim =>
      match s.da with
      | none => Except.error (PyError.nameError ("da"))
      | some da =>
          match squeeze_band_drop da with
          | Except.error e => Except.error e
          | Except.ok r => Except.ok { s with daRed := some r }
  | Step.visualize =>
      match s.daRed with
      | none => Except.error (PyError.nameError ("da_red"))
      | some r =>
          match w.render (notebook_plot r) with
          | Except.error e => Except.error e
          | Except.ok _ => Except.ok { s with plot := some (notebook_plot r) }
  | Step.exitEnv => Except.ok { s with envActive := false }

/-- Run a list of statements in order.  The first raised exception aborts
the remaining statements (notebook cells after a failing one are not
reached); the result is the final state, the list of statements that
completed, and the uncaught exception if any. -/
def run (w : World) : List Step → NBState → NBState × List Step × Option PyError
  | [], s => (s, [], none)
  | st :: rest, s =>
      match runStep w st s with
      | Except.error e => (s, [], some e)
      | Except.ok s1 =>
          let r := run w rest s1
          (r.1, st :: r.2.1, r.2.2)

/-- The notebook's cells in document order. -/
def notebookProg : List Step :=
  [Step.fetchCreds, Step.buildSession, Step.enterEnv, Step.openRaster,
   Step.reduceDim, Step.visualize, Step.exitEnv]

/-! ### Concrete sample data and oracles, used to instantiate the theorems -/

def ak_v : String := "AKIAEXAMPLEKEY"

def sk_v : String := "exampleSecretKey"

def tk_v : String := "exampleSessionToken"

/-- A sample well-formed credential object. -/
def demoCreds : Json :=
  [(accessKeyId_f, ak_v), (secretAccessKey_f, sk_v), (sessionToken_f, tk_v)]

/-- The session the notebook builds from `demoCreds`. -/
def demoSession : Session :=
  { aws_access_key_id := ak_v, aws_secret_access_key := sk_v,
    aws_session_token := tk_v, region_name := us_west_2 }

/-- A sample raster with a singleton band dimension. -/
def demoRaster : Raster3 :=
  { band := 1, nx := 4, ny := 3, data := fun b i j => Int.ofNat (b + 2 * i + j) }

/-- The 2-D array obtained from `demoRaster`. -/
def demoR2 : Raster2 := squeezeOk demoRaster

def ok_body : String := "well-formed-credential-json"

def bad_body : String := "this is not JSON"

/-- A body consisting of the two characters brace-open, brace-close:
the empty JSON object, which decodes successfully. -/
def emptyObj_body : String := "\x7b\x7d"

/-- Oracle on which every external call succeeds. -/
def allOkWorld : World :=
  { http := fun _ => Except.ok { status := 200, body := ok_body },
    parseJson := fun _ => some demoCreds,
    enterEnv := Except.ok (),
    openRaster := fun _ => Except.ok demoRaster,
    render := fun _ => Except.ok () }

/-- Oracle whose credential endpoint answers 404 with a well-formed JSON
body (the empty object). -/
def status404World : World :=
  { http := fun _ => Except.ok { status := 404, body := emptyObj_body },
    parseJson := fun s => if s = emptyObj_body then some [] else none,
    enterEnv := Except.ok (),
    openRaster := fun _ => Except.error PyError.rasterioError,
    render := fun _ => Except.ok () }

/-- Oracle whose credential endpoint answers 200 with a malformed body. -/
def badJsonWorld : World :=
  { http := fun _ => Except.ok { status := 200, body := bad_body },
    parseJson := fun _ => none,
    enterEnv := Except.ok (),
    openRaster := fun _ => Except.error PyError.rasterioError,
    render := fun _ => Except.ok () }

/-- Oracle on which credential fetch, session build and environment entry
succeed but the remote raster open raises. -/
def openFailWorld : World :=
  { http := fun _ => Except.ok { status := 200, body := ok_body },
    parseJson := fun _ => some demoCreds,
    enterEnv := Except.ok (),
    openRaster := fun _ => Except.error PyError.rasterioError,
    render := fun _ => Except.ok () }

/-- The interpreter state after the first three statements succeed. -/
def stateAfterEnter (j : Json) (sess : Session) : NBState :=
  { creds := some j, session := some sess, envActive := true,
    da := none, daRed := none, plot := none }

/-- The state after the raster open also succeeds. -/
def stateAfterOpen (j : Json) (sess : Session) (da : Raster3) : NBState :=
  { stateAfterEnter j sess with da := some da }

/-- The state after the dimension reduction also succeeds. -/
def stateAfterReduce (j : Json) (sess : Session) (da : Raster3) : NBState :=
  { stateAfterOpen j sess da with daRed := some (squeezeOk da) }

/-- A state in which only `da_red` is assigned. -/
def s_daRed : NBState := { initState with daRed := some demoR2 }

/-- `s_daRed` after the visualization statement. -/
def s_plotted : NBState := { s_daRed with plot := some (notebook_plot demoR2) }

/-! ### Theorems -/

/-- Helper: whatever the oracle does, the executed-statement trace of a
run is a prefix of the program — statements complete in program order,
none is repeated, and nothing runs after the first uncaught exception. -/
theorem run_trace_prefix (w : World) (prog : List Step) :
    ∀ s : NBState, ∃ k, (run w prog s).2.1 = prog.take k := by
  induction prog with
  | nil => intro s; exact ⟨0, rfl⟩
  | cons st rest ih =>
      intro s
      cases h : runStep w st s with
      | error e => exact ⟨0, by simp [run, h]⟩
      | ok s1 =>
          obtain ⟨k, hk⟩ := ih s1
          exact ⟨k + 1, by simp [run, h, hk]⟩

/-- Helper: every statement other than the `boto3.Session(...)` cell
leaves the `session` variable untouched. -/
theorem runStep_session_const (w : World) (st : Step) (s s1 : NBState)
    (hrun : runStep w st s = Except.ok s1) (hne : st ≠ Step.buildSession) :
    s1.session = s.session := by
  cases st with
  | buildSession => exact absurd rfl hne
  | fetchCreds =>
      simp only [runStep] at hrun
      split at hrun
      · cases hrun
      · injection hrun with h; rw [← h]
  | enterEnv =>
      simp only [runStep] at hrun
      split at hrun
      · cases hrun
      · split at hrun
        · cases hrun
        · injection hrun with h; rw [← h]
  | openRaster =>
      simp only [runStep] at hrun
      split at hrun
      · cases hrun
      · injection hrun with h; rw [← h]
  | reduceDim =>
      simp only [runStep] at hrun
      split at hrun
      · cases hrun
      · split at hrun
        · cases hrun
        · injection hrun with h; rw [← h]
  | visualize =>
      simp only [runStep] at hrun
      split at hrun
      · cases hrun
      · split at hrun
        · cases hrun
        · injection hrun with h; rw [← h]
  | exitEnv =>
      simp only [runStep] at hrun
      injection hrun with h; rw [← h]

/-- Claim C1 (amended): for every supported provider key, an error raised
by the HTTP request itself propagates unhandled, and a malformed JSON
body propagates as a decode error; exactly one request is issued in every
case (no retry; the embedding is stateless, so nothing is cached and no
expiry is tracked).  The status code is never consulted. -/
theorem C1_failure_propagation (w : World) (p u : String)
    (h : s3_cred_endpoint.lookup p = some u) :
    (∀ e, w.http { url := u, timeout := none } = Except.error e →
        (get_temp_creds w p).1 = Except.error e) ∧
    (∀ r, w.http { url := u, timeout := none } = Except.ok r →
        w.parseJson r.body = none →
        (get_temp_creds w p).1 = Except.error PyError.jsonDecodeError) ∧
    (get_temp_creds w p).2.length = 1 := by
  refine ⟨?_, ?_, ?_⟩
  · intro e he
    simp [get_temp_creds, h, he]
  · intro r hr hb
    simp [get_temp_creds, response_json, h, hr, hb]
  · cases hw : w.http { url := u, timeout := none } <;>
      simp [get_temp_creds, h, hw]

/-- Witness for claim C1's amended theorem, at the concrete oracle whose
endpoint answers 200 with a malformed body. -/
theorem C1_failure_propagation_witness :
    s3_cred_endpoint.lookup ("podaac") = some podaac_url ∧
    (get_temp_creds badJsonWorld ("podaac")).1 =
      Except.error PyError.jsonDecodeError ∧
    (get_temp_creds badJsonWorld ("podaac")).2.length = 1 :=
  ⟨rfl,
   (C1_failure_propagation badJsonWorld ("podaac") podaac_url rfl).2.1
     { status := 200, body := bad_body } rfl rfl,
   (C1_failure_propagation badJsonWorld ("podaac") podaac_url rfl).2.2⟩

/-- Claim C1, counterexample to the claim as stated: on an oracle whose
credential endpoint answers a non-200 status (404) with a well-formed
JSON body (the empty object), `get_temp_creds` returns the parsed object
and propagates no error — `requests.Response.json()` never consults the
status code. -/
theorem C1_counterexample :
    status404World.http { url := podaac_url, timeout := none } =
      Except.ok { status := 404, body := emptyObj_body } ∧
    404 ≠ 200 ∧
    (get_temp_creds status404World ("podaac")).1 = Except.ok ([]) :=
  ⟨rfl, by decide, rfl⟩

/-- Claim C2: if the credential fetch, session build and environment
entry succeed and then the remote raster open, the dimension reduction
(band size ≠ 1) or the rendering raises, the run ends with an uncaught
exception, the rasterio environment is still active in the final state
(the global configuration leaks), and `rio_env.__exit__` never ran. -/
theorem C2_env_leak_on_failure (w : World) (j : Json) (sess : Session)
    (hfetch : (get_temp_creds w provider_used).1 = Except.ok j)
    (hbuild : buildSession j = Except.ok sess)
    (henter : w.enterEnv = Except.ok ())
    (hfail : (∃ e, w.openRaster s3_url = Except.error e) ∨
             (∃ da, w.openRaster s3_url = Except.ok da ∧ da.band ≠ 1) ∨
             (∃ da e, w.openRaster s3_url = Except.ok da ∧ da.band = 1 ∧
                 w.render (notebook_plot (squeezeOk da)) = Except.error e)) :
    ∃ s tr e, run w notebookProg initState = (s, tr, some e) ∧
      s.envActive = true ∧ Step.exitEnv ∉ tr := by
  rcases hfail with ⟨e, hopen⟩ | ⟨da, hopen, hband⟩ | ⟨da, e, hopen, hband, hrender⟩
  · refine ⟨stateAfterEnter j sess,
      [Step.fetchCreds, Step.buildSession, Step.enterEnv], e, ?_, rfl, by decide⟩
    simp [notebookProg, run, runStep, initState, stateAfterEnter,
      hfetch, hbuild, henter, hopen]
  · refine ⟨stateAfterOpen j sess da,
      [Step.fetchCreds, Step.buildSession, Step.enterEnv, Step.openRaster],
      PyError.valueError, ?_, rfl, by decide⟩
    simp [notebookProg, run, runStep, initState, stateAfterEnter, stateAfterOpen,
      squeeze_band_drop, hfetch, hbuild, henter, hopen, hband]
  · refine ⟨stateAfterReduce j sess da,
      [Step.fetchCreds, Step.buildSession, Step.enterEnv, Step.openRaster,
       Step.reduceDim], e, ?_, rfl, by decide⟩
    simp [notebookProg, run, runStep, initState, stateAfterEnter, stateAfterOpen,
      stateAfterReduce, squeeze_band_drop, hfetch, hbuild, henter, hopen, hband,
      hrender]

/-- Witness for claim C2, at the concrete oracle on which the remote
raster open raises. -/
theorem C2_env_leak_on_failure_witness :
    (get_temp_creds openFailWorld provider_used).1 = Except.ok demoCreds ∧
    ∃ s tr e, run openFailWorld notebookProg initState = (s, tr, some e) ∧
      s.envActive = true ∧ Step.exitEnv ∉ tr :=
  ⟨rfl, C2_env_leak_on_failure openFailWorld demoCreds demoSession rfl rfl rfl
      (Or.inl ⟨PyError.rasterioError, rfl⟩)⟩

/-- Claim C3: on a labeled 3-D (band, x, y) array whose band dimension
has size 1, `da.squeeze('band', drop=True)` succeeds and returns the 2-D
(x, y) array whose values are the unique band slice of the input. -/
theorem C3_squeeze_singleton_band (da : Raster3) (h : da.band = 1) :
    squeeze_band_drop da =
      Except.ok { nx := da.nx, ny := da.ny, data := fun i j => da.data 0 i j } := by
  simp [squeeze_band_drop, squeezeOk, h]

/-- Witness for claim C3 at a concrete singleton-band raster. -/
theorem C3_squeeze_singleton_band_witness :
    demoRaster.band = 1 ∧
    squeeze_band_drop demoRaster =
      Except.ok { nx := demoRaster.nx, ny := demoRaster.ny,
                  data := fun i j => demoRaster.data 0 i j } :=
  ⟨rfl, C3_squeeze_singleton_band demoRaster rfl⟩

/-- Claim C4: the credential fetcher selects among exactly the five fixed
provider keys, issues a single HTTP GET to the selected URL, and returns
the response body parsed as a JSON credential object. -/
theorem C4_credential_fetcher (w : World) (p u : String)
    (h : s3_cred_endpoint.lookup p = some u) :
    s3_cred_endpoint.map Prod.fst =
      [("podaac" : String), "gesdisc", "lpdaac", "ornldaac", "ghrcdaac"] ∧
    (get_temp_creds w p).2 = [{ url := u, timeout := none }] ∧
    (∀ r, w.http { url := u, timeout := none } = Except.ok r →
        (get_temp_creds w p).1 = response_json w r) := by
  refine ⟨rfl, ?_, ?_⟩
  · cases hw : w.http { url := u, timeout := none } <;>
      simp [get_temp_creds, h, hw]
  · intro r hr
    simp [get_temp_creds, h, hr]

/-- Witness for claim C4 at the podaac key on the all-success oracle. -/
theorem C4_credential_fetcher_witness :
    s3_cred_endpoint.lookup ("podaac") = some podaac_url ∧
    (get_temp_creds allOkWorld ("podaac")).2 =
      [{ url := podaac_url, timeout := none }] ∧
    (get_temp_creds allOkWorld ("podaac")).1 =
      response_json allOkWorld { status := 200, body := ok_body } :=
  ⟨rfl,
   (C4_credential_fetcher allOkWorld ("podaac") podaac_url rfl).2.1,
   (C4_credential_fetcher allOkWorld ("podaac") podaac_url rfl).2.2
     { status := 200, body := ok_body } rfl⟩

/-- Claim C5: the session is built from exactly the three credential
fields plus the literal region string, and no statement other than the
session-construction cell ever changes the `session` variable. -/
theorem C5_session_construction (creds : Json) (a sk t : String)
    (w : World) (st : Step) (s s1 : NBState)
    (ha : creds.lookup accessKeyId_f = some a)
    (hs : creds.lookup secretAccessKey_f = some sk)
    (ht : creds.lookup sessionToken_f = some t)
    (hrun : runStep w st s = Except.ok s1)
    (hne : st ≠ Step.buildSession) :
    buildSession creds =
      Except.ok { aws_access_key_id := a, aws_secret_access_key := sk,
                  aws_session_token := t, region_name := us_west_2 } ∧
    s1.session = s.session := by
  constructor
  · simp [buildSession, dictGet, ha, hs, ht]
  · exact runStep_session_const w st s s1 hrun hne

/-- Witness for claim C5 at the sample credentials and the `exitEnv`
statement. -/
theorem C5_session_construction_witness :
    demoCreds.lookup accessKeyId_f = some ak_v ∧
    buildSession demoCreds =
      Except.ok { aws_access_key_id := ak_v, aws_secret_access_key := sk_v,
                  aws_session_token := tk_v, region_name := us_west_2 } ∧
    ({ initState with envActive := false } : NBState).session =
      initState.session :=
  ⟨rfl,
   (C5_session_construction demoCreds ak_v sk_v tk_v allOkWorld Step.exitEnv
      initState { initState with envActive := false } rfl rfl rfl rfl
      (by decide)).1,
   (C5_session_construction demoCreds ak_v sk_v tk_v allOkWorld Step.exitEnv
      initState { initState with envActive := false } rfl rfl rfl rfl
      (by decide)).2⟩

/-- Claim C6: the notebook is the fixed seven-statement straight-line
program (the six working steps in order, then the environment exit), no
statement occurs twice, and on every oracle the executed trace is a
prefix of that order — no branching, no retry, no error recovery. -/
theorem C6_strict_forward_order :
    notebookProg = [Step.fetchCreds, Step.buildSession, Step.enterEnv,
      Step.openRaster, Step.reduceDim, Step.visualize, Step.exitEnv] ∧
    notebookProg.Nodup ∧
    ∀ w : World, ∃ k, (run w notebookProg initState).2.1 = notebookProg.take k :=
  ⟨rfl, by decide, fun w => run_trace_prefix w notebookProg initState⟩

/-- Claim C7: when every external call succeeds and the opened raster has
a singleton band dimension, the whole program runs to completion with no
exception, the reduced array is 2-D with the input's spatial (x, y)
sizes, and the plot of that array is produced. -/
theorem C7_end_to_end_success (w : World) (j : Json) (sess : Session)
    (da : Raster3)
    (hfetch : (get_temp_creds w provider_used).1 = Except.ok j)
    (hbuild : buildSession j = Except.ok sess)
    (henter : w.enterEnv = Except.ok ())
    (hopen : w.openRaster s3_url = Except.ok da)
    (hband : da.band = 1)
    (hrender : w.render (notebook_plot (squeezeOk da)) = Except.ok ()) :
    ∃ s, run w notebookProg initState = (s, notebookProg, none) ∧
      s.daRed = some (squeezeOk da) ∧
      (squeezeOk da).nx = da.nx ∧ (squeezeOk da).ny = da.ny ∧
      s.plot = some (notebook_plot (squeezeOk da)) := by
  refine ⟨{ creds := some j, session := some sess, envActive := false,
            da := some da, daRed := some (squeezeOk da),
            plot := some (notebook_plot (squeezeOk da)) }, ?_, rfl, rfl, rfl, rfl⟩
  simp [notebookProg, run, runStep, initState, squeeze_band_drop,
    hfetch, hbuild, henter, hopen, hband, hrender]

/-- Witness for claim C7 on the all-success oracle. -/
theorem C7_end_to_end_success_witness :
    (get_temp_creds allOkWorld provider_used).1 = Except.ok demoCreds ∧
    allOkWorld.openRaster s3_url = Except.ok demoRaster ∧
    demoRaster.band = 1 ∧
    ∃ s, run allOkWorld notebookProg initState = (s, notebookProg, none) ∧
      s.daRed = some (squeezeOk demoRaster) ∧
      (squeezeOk demoRaster).nx = demoRaster.nx ∧
      (squeezeOk demoRaster).ny = demoRaster.ny ∧
      s.plot = some (notebook_plot (squeezeOk demoRaster)) :=
  ⟨rfl, rfl, rfl,
   C7_end_to_end_success allOkWorld demoCreds demoSession demoRaster
     rfl rfl rfl rfl rfl rfl⟩

/-- Claim C8: the visualization statement renders the 2-D array with the
keyword arguments x='x', y='y', cmap='gray', aspect='equal', and changes
nothing else: every other variable, the array included, is left exactly
as it was. -/
theorem C8_visualizer (w : World) (s s1 : NBState) (r : Raster2)
    (hda : s.daRed = some r)
    (hrun : runStep w Step.visualize s = Except.ok s1) :
    s1.plot = some { data := r, x := "x", y := "y",
                     cmap := "gray", aspect := "equal" } ∧
    s1.daRed = s.daRed ∧ s1.da = s.da ∧ s1.creds = s.creds ∧
    s1.session = s.session ∧ s1.envActive = s.envActive := by
  simp only [runStep, hda] at hrun
  split at hrun
  · cases hrun
  · injection hrun with h
    rw [← h, hda]
    exact ⟨rfl, rfl, rfl, rfl, rfl, rfl⟩

/-- Witness for claim C8 at the sample 2-D array. -/
theorem C8_visualizer_witness :
    s_daRed.daRed = some demoR2 ∧
    runStep allOkWorld Step.visualize s_daRed = Except.ok s_plotted ∧
    s_plotted.plot = some { data := demoR2, x := "x", y := "y",
                            cmap := "gray", aspect := "equal" } ∧
    s_plotted.daRed = s_daRed.daRed :=
  ⟨rfl, rfl,
   (C8_visualizer allOkWorld s_daRed s_plotted demoR2 rfl rfl).1,
   (C8_visualizer allOkWorld s_daRed s_plotted demoR2 rfl rfl).2.1⟩

/-- Claim C9: every HTTP request the credential fetcher issues carries no
timeout (the `requests.get` call passes no timeout keyword). -/
theorem C9_no_timeout (w : World) (p : String) (req : HttpRequest)
    (h : req ∈ (get_temp_creds w p).2) : req.timeout = none := by
  rcases hl : s3_cred_endpoint.lookup p with _ | url
  · simp [get_temp_creds, hl] at h
  · cases hw : w.http { url := url, timeout := none } with
    | error e =>
        simp [get_temp_creds, hl, hw] at h
        rw [h]
    | ok resp =>
        simp [get_temp_creds, hl, hw] at h
        rw [h]

/-- Witness for claim C9 at the request the podaac fetch issues. -/
theorem C9_no_timeout_witness :
    ({ url := podaac_url, timeout := none } : HttpRequest) ∈
      (get_temp_creds allOkWorld ("podaac")).2 ∧
    ({ url := podaac_url, timeout := none } : HttpRequest).timeout = none :=
  ⟨by decide,
   C9_no_timeout allOkWorld ("podaac") { url := podaac_url, timeout := none }
     (by decide)⟩

/-- Claim C10: calling `get_temp_creds` with a provider string outside
the five keys raises a `KeyError` from the dict subscript, and no HTTP
request is ever issued. -/
theorem C10_unknown_provider (w : World) (p : String)
    (h : s3_cred_endpoint.lookup p = none) :
    get_temp_creds w p = (Except.error (PyError.keyError p), []) := by
  simp [get_temp_creds, h]

/-- Witness for claim C10 at the unknown provider string asdc. -/
theorem C10_unknown_provider_witness :
    s3_cred_endpoint.lookup ("asdc") = none ∧
    get_temp_creds allOkWorld ("asdc") =
      (Except.error (PyError.keyError ("asdc")), []) :=
  ⟨rfl, C10_unknown_provider allOkWorld ("asdc") rfl⟩

end S3Cog
